import Mathlib

/-!
Shallow embedding of the Spotify artist-collaboration EDA applications
(`Scripts/2d-app.py` and `Scripts/3d-app.py`).

Conventions used throughout:
* pandas cell values for textual columns are modelled by `PyVal` (a string or NaN);
* Python strings are Lean `String`s, but every string operation used by the code
  (`str.lower`, `str.split()`, `str.replace`, `str.strip`, `","`-splitting, `int(...)`,
  `eval`/`ast.literal_eval` on list-of-string literals) is implemented here over
  `List Char` so that every definition evaluates inside the kernel;
* integer-valued columns (`followers`, `popularity`, chart-hit ranks, collaboration
  counts) are modelled as `ℤ`.  The float computations of the pipeline (quantiles,
  Tukey fences, mean ± 2·std) are modelled as exact real arithmetic carried out in
  integers after clearing denominators; each such definition documents the scaling;
* Python exceptions are modelled by `Except String` / `Option`: a raised exception
  is an `Except.error` (or `none`) propagating to the caller.
-/

deriving instance DecidableEq for Except

namespace SpotifyEDA

/-- Single-quote character (written via its code point). -/
def squote : Char := Char.ofNat 39

/-- Double-quote character (written via its code point). -/
def dquote : Char := Char.ofNat 34

/-- Does `sub` occur at the head of `s`?  Helper for substring containment. -/
def leadMatch : List Char → List Char → Bool
  | [], _ => true
  | _ :: _, [] => false
  | a :: as, b :: bs => a == b && leadMatch as bs

/-- Does `sub` occur anywhere in `s`?  Helper for substring containment. -/
def subMatch (sub : List Char) : List Char → Bool
  | [] => leadMatch sub []
  | b :: bs => leadMatch sub (b :: bs) || subMatch sub bs

/-- Python `sub in s` (substring containment). -/
def strContainsSub (s sub : String) : Bool :=
  subMatch sub.data s.data

/-- Python `str.lower()` (ASCII case folding, which covers the genre data). -/
def strLower (s : String) : String :=
  String.mk (s.data.map Char.toLower)

/-- Accumulator-style splitter on whitespace; Python `str.split()` discards
empty fields, which is achieved by the `acc = []` tests. -/
def splitWsAux : List Char → List Char → List (List Char)
  | [], acc => if acc.isEmpty then [] else [acc.reverse]
  | c :: cs, acc =>
    if c.isWhitespace then
      if acc.isEmpty then splitWsAux cs [] else acc.reverse :: splitWsAux cs []
    else splitWsAux cs (c :: acc)

/-- Python `str.split()` (split on whitespace runs, no empty fields). -/
def pySplitWs (s : String) : List String :=
  (splitWsAux s.data []).map String.mk

/-- Python `s.replace("(", "").replace(")", "")`: removing every occurrence of a
single parenthesis character is exactly a character filter. -/
def stripParens (s : String) : String :=
  String.mk (s.data.filter (fun c => !(c == '(' || c == ')')))

/-- Value of a decimal digit string (callers check `Char.isDigit` first). -/
def digitsToNat (ds : List Char) : ℕ :=
  ds.foldl (fun n c => 10 * n + (c.toNat - 48)) 0

/-- Python `int(s)` on a whitespace-free token: optional sign followed by digits;
anything else raises (`none`). -/
def pyInt? (s : String) : Option ℤ :=
  match s.data with
  | [] => none
  | '-' :: ds =>
    if !ds.isEmpty && ds.all Char.isDigit then some (-(digitsToNat ds : ℤ)) else none
  | '+' :: ds =>
    if !ds.isEmpty && ds.all Char.isDigit then some ((digitsToNat ds : ℤ)) else none
  | ds =>
    if ds.all Char.isDigit then some ((digitsToNat ds : ℤ)) else none

/-- Python `str.strip()` on a character list. -/
def trimChars (cs : List Char) : List Char :=
  ((cs.dropWhile Char.isWhitespace).reverse.dropWhile Char.isWhitespace).reverse

/-- Split a character list on `','` (keeping empty fields, as Python `split(",")` does). -/
def splitCommaAux : List Char → List Char → List (List Char)
  | [], acc => [acc.reverse]
  | c :: cs, acc =>
    if c == ',' then acc.reverse :: splitCommaAux cs [] else splitCommaAux cs (c :: acc)

/-- Effectful map over `Option` (Python loop that stops at the first failure). -/
def mapO (f : α → Option β) : List α → Option (List β)
  | [] => some []
  | a :: as =>
    match f a, mapO f as with
    | some b, some bs => some (b :: bs)
    | _, _ => none

/-- Effectful map over `Except` (Python loop whose body may raise). -/
def mapE (f : α → Except ε β) : List α → Except ε (List β)
  | [] => Except.ok []
  | a :: as =>
    match f a with
    | Except.ok b =>
      match mapE f as with
      | Except.ok bs => Except.ok (b :: bs)
      | Except.error e => Except.error e
    | Except.error e => Except.error e

/-- One item of a Python list literal: a trimmed, quote-delimited string with no
embedded quote of the same kind. -/
def parseQuotedItem (cs : List Char) : Option String :=
  match trimChars cs with
  | [] => none
  | c :: rest =>
    if (c == squote || c == dquote) && !rest.isEmpty &&
        rest.getLast? == some c && !(rest.dropLast.contains c) then
      some (String.mk rest.dropLast)
    else none

/-- Model of Python `eval` / `ast.literal_eval` restricted to the domain the
applications feed it: a textual serialization of a list of strings, e.g.
`['pop', 'rock']`.  A string accepted by this parser is a valid Python list
literal and evaluates to the returned list; a string rejected by it is modelled
as raising (`Except.error`), which is faithful for every input that is not a
valid Python expression. -/
def pyEvalStrList (s : String) : Except String (List String) :=
  match trimChars s.data with
  | '[' :: rest =>
    if rest.getLast? == some ']' then
      if (trimChars rest.dropLast).isEmpty then Except.ok []
      else
        match mapO parseQuotedItem (splitCommaAux rest.dropLast []) with
        | some items => Except.ok items
        | none => Except.error "malformed node or string"
    else Except.error "unexpected EOF while parsing"
  | _ => Except.error "invalid syntax"

/-- A pandas cell of a textual CSV column: a string, or NaN for a missing value. -/
inductive PyVal where
  | PStr (s : String)
  | PNaN
deriving DecidableEq

/-- `2d-app.py` line 26 / `3d-app.py` line 21, the genres conversion
`lambda x: eval(x) if isinstance(x, str) else []`:
a non-string cell is silently mapped to the empty list, while a string cell is
passed to `eval`, whose failures propagate (they are not caught). -/
def loadGenres : PyVal → Except String (List String)
  | PyVal.PStr s => pyEvalStrList s
  | PyVal.PNaN => Except.ok []

/-- `2d-app.py` line 70: `entry.replace("(", "").replace(")", "").split()`
followed by the 2-tuple destructuring and `int(hit_number)`.  `none` models the
`ValueError` raised on a malformed entry. -/
def parseEntry? (entry : String) : Option (String × ℤ) :=
  match pySplitWs (stripParens entry) with
  | [c, n] =>
    match pyInt? n with
    | some k => some (c, k)
    | none => none
  | _ => none

/-- `2d-app.py` lines 62-78, `expand_chart_hits`, with the raised/caught
exception made explicit: NaN and `'[]'` short-circuit to `[]` before the `try`
block; inside the `try`, `ast.literal_eval` and the per-entry parse may raise. -/
def expandChartHitsE (v : PyVal) : Except String (List (String × ℤ)) :=
  match v with
  | PyVal.PNaN => Except.ok []
  | PyVal.PStr s =>
    if s = "[]" then Except.ok []
    else
      match pyEvalStrList s with
      | Except.error e => Except.error e
      | Except.ok entries =>
        match mapO parseEntry? entries with
        | some l => Except.ok l
        | none => Except.error "not enough values to unpack"

/-- `expand_chart_hits` as seen by callers: the `except` clause turns any raised
error into the empty list. -/
def expand_chart_hits (v : PyVal) : List (String × ℤ) :=
  match expandChartHitsE v with
  | Except.ok l => l
  | Except.error _ => []

/-- Did `expand_chart_hits` hit its `except` clause (which prints the error)? -/
def chartHitsLogged (v : PyVal) : Bool :=
  !(expandChartHitsE v).isOk

/-- `2d-app.py` lines 29-40: the fixed ten-bucket genre taxonomy
`self.top_genres`, as an association list in source order. -/
def top_genres : List (String × List String) :=
  [ ("pop", ["pop", "k-pop", "j-pop", "cantopop", "mandopop", "synthpop", "electropop"]),
    ("rock", ["rock", "hard rock", "punk rock", "alternative rock", "indie rock", "classic rock"]),
    ("hip-hop", ["hip hop", "rap", "trap", "gangsta rap", "alternative hip hop"]),
    ("edm", ["edm", "electronic", "house", "techno", "dubstep", "trance"]),
    ("r&b", ["r&b", "soul", "neo soul", "funk"]),
    ("country", ["country", "country pop", "outlaw country"]),
    ("jazz", ["jazz", "bebop", "swing", "cool jazz", "fusion"]),
    ("classical", ["classical", "orchestral", "chamber music", "baroque", "romantic", "symphony"]),
    ("latin", ["latin", "reggaeton", "salsa", "bachata", "latin pop"]),
    ("reggae", ["reggae", "dub", "dancehall"]) ]

/-- Does some substring of the bucket occur in some (lowercased) tag?
`2d-app.py` line 58: `any(sub in genre.lower() for sub in subgenres)`, iterated
over the tag list. -/
def genreMatches (subs : List String) (tags : List String) : Bool :=
  tags.any (fun g => subs.any (fun sub => strContainsSub (strLower g) sub))

/-- `2d-app.py` lines 47-60, `map_to_top_genres`, on the list-typed input it
receives in the pipeline (the `genres` column is deserialized to lists by
`load_data` before this runs).  The source accumulates matching bucket names in
a Python `set`; the set is represented here as the duplicate-free list of
matching buckets in taxonomy order. -/
def map_to_top_genres (tags : List String) : List String :=
  (top_genres.filter (fun p => genreMatches p.2 tags)).map Prod.fst

/-- One row of `nodes.csv` after `load_data` (genres already deserialized). -/
structure ArtistRow where
  spotify_id : String
  name : String
  followers : ℤ
  popularity : ℤ
  genres : List String
  chart_hits : PyVal
deriving DecidableEq

/-- An `ArtistRow` with the derived columns added by pipeline stage 2. -/
structure GenredRow where
  base : ArtistRow
  cleaned_genres : List String
  genre_count : ℕ
deriving DecidableEq

/-- A `GenredRow` with the chart-hit aggregates joined in stage 3. -/
structure HitRow where
  base : GenredRow
  total_hits : ℤ
  num_countries : ℕ
deriving DecidableEq

/-- A `HitRow` with the collaboration count joined in stage 6. -/
structure CollabRow where
  base : HitRow
  collab_count : ℤ
deriving DecidableEq

/-- Stable descending sort by an integer key.  `nlargest(n, col)` keeps ties in
input order (`keep='first'`), which a stable sort with the non-strict
"greater-or-equal" relation realizes exactly. -/
def sortByDesc (f : α → ℤ) (l : List α) : List α :=
  l.insertionSort (fun a b => f b ≤ f a)

/-- Stage 1 (`2d-app.py` line 81): `self.nodes_df.nlargest(100, 'popularity')`. -/
def stage1 (nodes : List ArtistRow) : List ArtistRow :=
  (sortByDesc (fun r => r.popularity) nodes).take 100

/-- Stage 2 (`2d-app.py` lines 84-86): attach `cleaned_genres` and
`genre_count`, and drop rows whose cleaned genre list is empty. -/
def stage2 (rows : List ArtistRow) : List GenredRow :=
  (rows.map (fun r =>
      GenredRow.mk r (map_to_top_genres r.genres) (map_to_top_genres r.genres).length)).filter
    (fun g => 0 < g.cleaned_genres.length)

/-- `2d-app.py` lines 89-97: the `expanded_hits` list, one record
`(spotify_id, country_code, hit_number)` per parsed chart hit per row. -/
def expandedHits (rows : List GenredRow) : List (String × String × ℤ) :=
  rows.flatMap (fun r =>
    (expand_chart_hits r.base.chart_hits).map (fun h => (r.base.spotify_id, h.1, h.2)))

/-- The `(country_code, hit_number)` pairs of one artist within `expandedHits`. -/
def hitsFor (l : List (String × String × ℤ)) (id : String) : List (String × ℤ) :=
  l.filterMap (fun t => if t.1 == id then some t.2 else none)

/-- `total_hits` aggregate: sum of the hit numbers. -/
def totalHitsOf (l : List (String × ℤ)) : ℤ :=
  (l.map (fun h => h.2)).sum

/-- `num_countries` aggregate: number of distinct country codes. -/
def numCountriesOf (l : List (String × ℤ)) : ℕ :=
  ((l.map (fun h => h.1)).dedup).length

/-- `2d-app.py` lines 102-105: `groupby('spotify_id').agg(total_hits=..., num_countries=...)`.
One record per distinct artist id occurring in `expandedHits`. -/
def groupedHits (rows : List GenredRow) : List (String × ℤ × ℕ) :=
  ((expandedHits rows).map (fun t => t.1)).dedup.map (fun i =>
    (i, totalHitsOf (hitsFor (expandedHits rows) i),
      numCountriesOf (hitsFor (expandedHits rows) i)))

/-- Stage 3 (`2d-app.py` lines 108-109): left-merge the aggregates on
`spotify_id` (the groupby keys are distinct, so each row matches at most one
aggregate record) and `dropna` the rows with no aggregate. -/
def stage3 (rows : List GenredRow) : List HitRow :=
  rows.filterMap (fun r =>
    match (groupedHits rows).find? (fun t => t.1 == r.base.spotify_id) with
    | some t => some (HitRow.mk r t.2.1 t.2.2)
    | none => none)

/-- Stage 4 (`2d-app.py` line 110): re-sort by popularity descending and
re-truncate to 100. -/
def stage4 (rows : List HitRow) : List HitRow :=
  (sortByDesc (fun r => r.base.base.popularity) rows).take 100

/-- `40 ×` the `k/40`-quantile of an integer list under pandas' default linear
interpolation (`2d-app.py` lines 114-115 use `quantile(0.025)` and
`quantile(0.975)`, i.e. `k = 1` and `k = 39`).  With `s` the ascending sort and
`h = (k/40)·(n-1)` the fractional position, pandas returns
`s[⌊h⌋] + (h-⌊h⌋)·(s[⌊h⌋+1] - s[⌊h⌋])`; multiplying by 40 clears the only
denominator, so this integer value is exactly 40 times the quantile. -/
def quantile40 (l : List ℤ) (k : ℕ) : ℤ :=
  let s := l.insertionSort (fun a b => a ≤ b)
  if s.length = 0 then 0
  else
    let p := k * (s.length - 1)
    let lo := s.getD (p / 40) 0
    let hi := s.getD (p / 40 + 1) lo
    40 * lo + ((p % 40 : ℕ) : ℤ) * (hi - lo)

/-- `80 ×` the lower Tukey fence `Q1 - 1.5·IQR` of `2d-app.py` line 117:
`80·(Q1 - 1.5·(Q3 - Q1)) = 80·(2.5·Q1 - 1.5·Q3) = 5·(40·Q1) - 3·(40·Q3)`. -/
def tukeyLower80 (vals : List ℤ) : ℤ :=
  5 * quantile40 vals 1 - 3 * quantile40 vals 39

/-- `80 ×` the upper Tukey fence `Q3 + 1.5·IQR` of `2d-app.py` line 118:
`80·(Q3 + 1.5·(Q3 - Q1)) = 80·(2.5·Q3 - 1.5·Q1) = 5·(40·Q3) - 3·(40·Q1)`. -/
def tukeyUpper80 (vals : List ℤ) : ℤ :=
  5 * quantile40 vals 39 - 3 * quantile40 vals 1

/-- One pass of the outlier loop of `2d-app.py` lines 113-122 for the column
read by `f`: keep the rows with `lower_bound ≤ value ≤ upper_bound`.  The real
bounds are compared here at scale 80 (`lower_bound ≤ x  ⟺  80·lower_bound ≤ 80·x`),
which is exact. -/
def tukeyStage (f : α → ℤ) (rows : List α) : List α :=
  rows.filter (fun r =>
    decide (tukeyLower80 (rows.map f) ≤ 80 * f r) &&
    decide (80 * f r ≤ tukeyUpper80 (rows.map f)))

/-- Stage 5 (`2d-app.py` lines 113-122): the loop body runs first for
`followers`, then for `popularity` on the already-filtered frame. -/
def stage5 (rows : List HitRow) : List HitRow :=
  tukeyStage (fun r => r.base.base.popularity)
    (tukeyStage (fun r => r.base.base.followers) rows)

/-- `2d-app.py` line 125: `pd.concat([edges_df['id_0'], edges_df['id_1']]).value_counts()`
evaluated at one artist id: the number of raw appearances of `a` across both
endpoint columns (duplicate edge rows are counted each time they occur). -/
def concatCount (edges : List (String × String)) (a : String) : ℕ :=
  ((edges.map Prod.fst) ++ (edges.map Prod.snd)).count a

/-- Stage 6 (`2d-app.py` lines 125-130): left-merge the value counts on
`spotify_id` and `fillna(0)`.  An id present in the counts receives its count
(always ≥ 1); an absent id receives NaN, then 0 — together: `concatCount`. -/
def stage6 (edges : List (String × String)) (rows : List HitRow) : List CollabRow :=
  rows.map (fun r => CollabRow.mk r (concatCount edges r.base.base.spotify_id : ℤ))

/-- Stage 7 (`2d-app.py` lines 133-138): keep rows with
`mean - 2·std ≤ collab_count ≤ mean + 2·std` (sample std, `ddof = 1`).
Over the reals this is `(x - m)² ≤ 4·σ²`; with `n` rows, `s` the column sum,
`m = s/n` and `σ² = Σ(xᵢ - m)²/(n-1)`, multiplying by `n²·(n-1) > 0` gives the
exact integer form `(n-1)·(n·x - s)² ≤ 4·Σ(n·xᵢ - s)²` used here.
For `n ≤ 1` pandas' sample std is NaN and both NaN comparisons are false, so
every row is dropped; for `n = 0` the result is empty either way. -/
def stage7 (rows : List CollabRow) : List CollabRow :=
  if rows.length < 2 then []
  else
    rows.filter (fun r =>
      decide ((((rows.length : ℤ)) - 1) * ((rows.length : ℤ) * r.collab_count -
            (rows.map (fun x => x.collab_count)).sum) ^ 2 ≤
        4 * ((rows.map (fun x => ((rows.length : ℤ) * x.collab_count -
            (rows.map (fun y => y.collab_count)).sum) ^ 2)).sum)))

/-- `2d-app.py` lines 45-140, `prepare_cleaned_data`: the full pipeline. -/
def prepare_cleaned_data (edges : List (String × String)) (nodes : List ArtistRow) :
    List CollabRow :=
  stage7 (stage6 edges (stage5 (stage4 (stage3 (stage2 (stage1 nodes))))))

/-- Node set of the undirected graph `nx.from_pandas_edgelist` builds
(`2d-app.py` line 144): every id occurring as an endpoint, deduplicated. -/
def nodesOfEdges (edges : List (String × String)) : List String :=
  (edges.flatMap (fun e => [e.1, e.2])).dedup

/-- Distinct neighbors of `v` in the graph: targets of edges leaving `v` and
sources of edges entering `v`, deduplicated (an undirected simple graph
collapses duplicate and reversed edge rows). -/
def nxNeighbors (edges : List (String × String)) (v : String) : List String :=
  ((edges.filterMap (fun e => if e.1 == v then some e.2 else none)) ++
    (edges.filterMap (fun e => if e.2 == v then some e.1 else none))).dedup

/-- Is there a self-loop edge at `v`? -/
def hasSelfLoopAt (edges : List (String × String)) (v : String) : Bool :=
  edges.any (fun e => e.1 == v && e.2 == v)

/-- `G.degree()` of networkx (`2d-app.py` line 145): the number of adjacent
edges of the simple graph, a self-loop counting twice — equivalently the number
of distinct neighbors, plus one more if `v` has a self-loop (then `v` is also
its own neighbor). -/
def nxDegree (edges : List (String × String)) (v : String) : ℕ :=
  (nxNeighbors edges v).length + (if hasSelfLoopAt edges v then 1 else 0)

/-- `2d-app.py` lines 208-215, `genre_collaboration_stats`: for each taxonomy
bucket, the mean `collab_count` over the dataset artists whose cleaned genre
set contains it, and 0 for a bucket with no artists. -/
def genre_collaboration_stats (rows : List CollabRow) : List (String × ℚ) :=
  top_genres.map (fun p =>
    (p.1,
      if (rows.filter (fun r => r.base.base.cleaned_genres.contains p.1)).isEmpty then (0 : ℚ)
      else
        (((rows.filter (fun r => r.base.base.cleaned_genres.contains p.1)).map
            (fun r => r.collab_count)).sum : ℚ) /
          ((rows.filter (fun r => r.base.base.cleaned_genres.contains p.1)).length : ℚ)))

/-- A cytoscape element built by `create_network_elements`. -/
inductive CytoElement where
  | node (id label : String) (size : ℕ) (followers popularity : ℤ) (genres : List String)
  | edge (source target : String)
deriving DecidableEq

/-- Lexicographic comparison of character lists (used only to pick a canonical
orientation of an unordered pair). -/
def charListLe : List Char → List Char → Bool
  | [], _ => true
  | _ :: _, [] => false
  | a :: as, b :: bs => if a < b then true else if b < a then false else charListLe as bs

/-- Unordered edge normalization used to present the distinct edges of the
undirected graph (`G.edges()` yields each collapsed edge once). -/
def normPair (e : String × String) : String × String :=
  if charListLe e.1.data e.2.data then e else (e.2, e.1)

/-- The distinct undirected edges of the graph, one per collapsed pair. -/
def graphEdgeList (edges : List (String × String)) : List (String × String) :=
  (edges.map normPair).dedup

/-- `self.degrees[artist_id]` (`2d-app.py` line 163): dictionary lookup, raising
`KeyError` for an id that is not a graph node. -/
def lookupDegree (edges : List (String × String)) (v : String) : Except String ℕ :=
  if (nodesOfEdges edges).contains v then Except.ok (nxDegree edges v)
  else Except.error "KeyError"

/-- The node element built for one artist id by `2d-app.py` lines 157-169:
`self.nodes_df[self.nodes_df['spotify_id'] == artist_id].iloc[0]` is the first
matching attribute row; `.iloc[0]` on an empty selection raises `IndexError`,
modelled by `Except.error`. -/
def buildNodeElement (nodes : List ArtistRow) (edges : List (String × String))
    (i : String) : Except String CytoElement :=
  match nodes.find? (fun r => r.spotify_id == i) with
  | some r =>
    match lookupDegree edges i with
    | Except.ok d => Except.ok (CytoElement.node i r.name d r.followers r.popularity r.genres)
    | Except.error e => Except.error e
  | none => Except.error "single positional indexer is out-of-bounds"

/-- `2d-app.py` lines 152-181, `create_network_elements`: node elements for the
given artist ids, then the collapsed graph edges with both endpoints selected.
Any exception raised while building a node element aborts the whole call. -/
def create_network_elements (nodes : List ArtistRow) (edges : List (String × String))
    (ids : List String) : Except String (List CytoElement) :=
  match mapE (buildNodeElement nodes edges) ids with
  | Except.error e => Except.error e
  | Except.ok nodeEls =>
    Except.ok (nodeEls ++
      ((graphEdgeList edges).filter (fun e => ids.contains e.1 && ids.contains e.2)).map
        (fun e => CytoElement.edge e.1 e.2))

/-- The text/colour data fetched for a single subgraph node by
`create_3d_network` (`3d-app.py` lines 69-74): the same `.iloc[0]` lookup
pattern as the 2d builder, raising `IndexError` when no row matches. -/
def build3dNodeData (nodes : List ArtistRow) (v : String) : Except String (String × ℤ) :=
  match nodes.find? (fun r => r.spotify_id == v) with
  | some r => Except.ok (r.name, r.popularity)
  | none => Except.error "single positional indexer is out-of-bounds"

/-- The per-node data pass of `create_3d_network` (`3d-app.py` lines 63-74):
fetch the data of every node of the induced subgraph; the force-directed
coordinates are irrelevant to the lookups and are omitted. -/
def create_3d_network_nodeData (nodes : List ArtistRow) (edges : List (String × String))
    (ids : List String) : Except String (List (String × ℤ)) :=
  mapE (build3dNodeData nodes) ((nodesOfEdges edges).filter (fun v => ids.contains v))

/-- The entry-processing loop of `expand_chart_hits` starting from the already
deserialized entry list (`2d-app.py` lines 68-75): either every entry parses,
or the raised error collapses the artist's result to `[]`. -/
def processEntries (es : List String) : List (String × ℤ) :=
  match mapO parseEntry? es with
  | some l => l
  | none => []

/-- The per-artist collaboration count as the SPEC's claim C3 defines it
(not as the code computes it): the number of appearances of `a` across the
CollaborationEdges viewed as UNORDERED pairs with duplicate entries collapsed,
both endpoints of each collapsed edge counted. -/
def specCollabCount (edges : List (String × String)) (a : String) : ℕ :=
  ((edges.map normPair).dedup.map (fun e =>
    (if e.1 = a then 1 else 0) + (if e.2 = a then 1 else 0))).sum

/-- Concrete node row used by the concrete check inputs below. -/
def sampleRowA : ArtistRow :=
  ⟨"A", "Artist A", 100, 90, ["pop"], PyVal.PStr "['(US 1)']"⟩

/-- Second concrete node row. -/
def sampleRowB : ArtistRow :=
  ⟨"B", "Artist B", 200, 80, ["trap"], PyVal.PStr "['(US 2)', '(CA 3)']"⟩

/-- The dataset row the pipeline produces for `sampleRowA` when run on
`[sampleRowA, sampleRowB]` with the single edge `("A","B")`. -/
def sampleFinalA : CollabRow := ⟨⟨⟨sampleRowA, ["pop"], 1⟩, 1, 1⟩, 1⟩

/-- The stage-3 row for `sampleRowA` alone. -/
def sampleHitA : HitRow := ⟨⟨sampleRowA, ["pop"], 1⟩, 1, 1⟩

/-- The stage-6 row for `sampleRowA` against the duplicated edge list
`[("A","B"), ("A","B")]`. -/
def sampleCollabA2 : CollabRow := ⟨sampleHitA, 2⟩

/-- A row whose chart-hit list contains one well-formed and one malformed entry. -/
def badGenredRow : GenredRow :=
  ⟨⟨"X", "Artist X", 1, 1, [], PyVal.PStr "['(US 1)', 'bogus']"⟩, [], 0⟩

/-- A row whose chart-hit list is well-formed. -/
def goodGenredRow : GenredRow :=
  ⟨⟨"G", "Artist G", 1, 1, [], PyVal.PStr "['(US 1)']"⟩, ["pop"], 1⟩

/-! ## Helper lemmas -/

/-- If one loop iteration raises, the whole effectful map raises. -/
theorem mapE_isOk_false {ε α β : Type} (f : α → Except ε β) :
    ∀ {l : List α} {a : α}, a ∈ l → (f a).isOk = false → (mapE f l).isOk = false := by
  intro l
  induction l with
  | nil => intro a ha _; cases ha
  | cons b bs ih =>
    intro a ha hf
    rcases List.mem_cons.mp ha with h | h
    · subst h
      simp only [mapE]
      cases hfb : f a with
      | error e => rfl
      | ok v => rw [hfb] at hf; simp [Except.isOk, Except.toBool] at hf
    · simp only [mapE]
      cases hfb : f b with
      | error e => rfl
      | ok v =>
        have hbs := ih h hf
        cases hm : mapE f bs with
        | error e => rfl
        | ok vs => rw [hm] at hbs; simp [Except.isOk, Except.toBool] at hbs

/-- `mapO` succeeds exactly when every element parses, and then it is the
(total) `filterMap`. -/
theorem mapO_eq_ite (f : α → Option β) :
    ∀ l : List α,
      mapO f l = if l.all (fun a => (f a).isSome) then some (l.filterMap f) else none := by
  intro l
  induction l with
  | nil => simp [mapO]
  | cons a as ih =>
    simp only [mapO, ih, List.all_cons, List.filterMap_cons]
    cases hfa : f a with
    | none => simp
    | some b =>
      cases hall : as.all (fun a => (f a).isSome) with
      | false => simp [hall]
      | true => simp [hall]

/-- If one element fails to parse, the whole effectful map fails. -/
theorem mapO_eq_none_of_mem {f : α → Option β} {l : List α} {a : α}
    (ha : a ∈ l) (hf : f a = none) : mapO f l = none := by
  rw [mapO_eq_ite]
  cases hall : l.all (fun x => (f x).isSome) with
  | false => simp
  | true =>
    exfalso
    have := List.all_eq_true.mp hall a ha
    rw [hf] at this
    cases this

/-- Permutations do not change `List.all`. -/
theorem perm_all_eq {l₁ l₂ : List α} (h : l₁.Perm l₂) (p : α → Bool) :
    l₁.all p = l₂.all p := by
  cases hb : l₂.all p with
  | true =>
    exact List.all_eq_true.mpr fun a haa => (List.all_eq_true.mp hb) a (h.mem_iff.mp haa)
  | false =>
    cases ha : l₁.all p with
    | false => rfl
    | true =>
      exfalso
      have : l₂.all p = true :=
        List.all_eq_true.mpr fun a haa => (List.all_eq_true.mp ha) a (h.mem_iff.mpr haa)
      rw [this] at hb
      cases hb

/-! ## Claims -/

/-- C1 counterexample: the claim says an element-building operation given a
graph node with no matching attribute row "does not crash: it signals a
'not found' result to the caller rather than raising".  On the concrete input
of an empty node table and the requested id `"B"`, `create_network_elements`
raises (`IndexError` from `.iloc[0]`, modelled as `Except.error`) instead of
returning any result. -/
theorem create_network_elements_missing_row_cex :
    create_network_elements [] [] ["B"] =
      Except.error "single positional indexer is out-of-bounds" := by decide

/-- C1 (amended): a graph node id with no matching row in the node attribute
table makes the element-building operations (`create_network_elements` and the
node-data pass of `create_3d_network`) raise — `.iloc[0]` on the empty
selection raises `IndexError`, aborting the whole call; no default attribute
values are substituted. -/
theorem missing_attribute_row_raises :
    (∀ (nodes : List ArtistRow) (edges : List (String × String)) (ids : List String),
      (∃ i ∈ ids, nodes.find? (fun r => r.spotify_id == i) = none) →
      (create_network_elements nodes edges ids).isOk = false) ∧
    (∀ (nodes : List ArtistRow) (edges : List (String × String)) (ids : List String),
      (∃ v ∈ (nodesOfEdges edges).filter (fun v => ids.contains v),
        nodes.find? (fun r => r.spotify_id == v) = none) →
      (create_3d_network_nodeData nodes edges ids).isOk = false) := by
  constructor
  · intro nodes edges ids ⟨i, hi, hnone⟩
    have hbuild : (buildNodeElement nodes edges i).isOk = false := by
      simp only [buildNodeElement, hnone]
      rfl
    have hmap := mapE_isOk_false (buildNodeElement nodes edges) hi hbuild
    simp only [create_network_elements]
    cases hm : mapE (buildNodeElement nodes edges) ids with
    | error e => rfl
    | ok v => rw [hm] at hmap; simp [Except.isOk, Except.toBool] at hmap
  · intro nodes edges ids ⟨v, hv, hnone⟩
    have hbuild : (build3dNodeData nodes v).isOk = false := by
      simp only [build3dNodeData, hnone]
      rfl
    exact mapE_isOk_false _ hv hbuild

/-- C1 (amended) witness: with an empty node table and the graph node `"A"`
selected, both element builders raise. -/
theorem missing_attribute_row_raises_witness :
    (create_network_elements [] [("A", "B")] ["A"]).isOk = false ∧
    (create_3d_network_nodeData [] [("A", "B")] ["A"]).isOk = false :=
  ⟨missing_attribute_row_raises.1 [] [("A", "B")] ["A"] ⟨"A", by decide, by decide⟩,
   missing_attribute_row_raises.2 [] [("A", "B")] ["A"] ⟨"A", by decide, by decide⟩⟩

/-- C2 counterexample: the claim says the genres deserialization "is total and
never raises", mapping any unparsable string to the empty sequence.  On the
concrete cell `"]["` (not a valid Python expression), the loader's
`eval` raises and the error propagates — the result is an error, not `[]`. -/
theorem genres_eval_raises_cex :
    loadGenres (PyVal.PStr "][") = Except.error "invalid syntax" := by decide

/-- C2 (amended): the genres deserialization maps any non-string cell silently
to the empty sequence and maps a string holding a valid list serialization to
the corresponding ordered sequence of strings, but a string that `eval` cannot
parse raises, and the error propagates to the caller (the deserialization is
not total on unparsable strings). -/
theorem loadGenres_amended :
    loadGenres PyVal.PNaN = Except.ok [] ∧
    (∀ (s : String) (l : List String), pyEvalStrList s = Except.ok l →
      loadGenres (PyVal.PStr s) = Except.ok l) ∧
    (∀ (s e : String), pyEvalStrList s = Except.error e →
      loadGenres (PyVal.PStr s) = Except.error e) :=
  ⟨rfl, fun _ _ h => h, fun _ _ h => h⟩

/-- C2 (amended) witness: a valid serialization maps to its list, an invalid
one raises. -/
theorem loadGenres_amended_witness :
    loadGenres (PyVal.PStr "['pop', 'rock']") = Except.ok ["pop", "rock"] ∧
    loadGenres (PyVal.PStr "oops") = Except.error "invalid syntax" :=
  ⟨loadGenres_amended.2.1 "['pop', 'rock']" ["pop", "rock"] (by decide),
   loadGenres_amended.2.2 "oops" "invalid syntax" (by decide)⟩

/-- C3 counterexample: the claim says the stage-6 collaboration count counts a
duplicated CollaborationEdge once.  Running stages 1-6 on the single artist
`"A"` with the duplicated edge list `[("A","B"), ("A","B")]`, the surviving row
for `"A"` gets `collab_count = 2`, while the claim's collapsed-multiplicity
count (`specCollabCount`, both endpoints of each distinct unordered pair) is 1. -/
theorem collab_count_multiplicity_cex :
    (stage6 [("A", "B"), ("A", "B")]
        (stage5 (stage4 (stage3 (stage2 (stage1 [sampleRowA])))))).map
      (fun r => (r.base.base.base.spotify_id, r.collab_count)) = [("A", 2)] ∧
    specCollabCount [("A", "B"), ("A", "B")] "A" = 1 := by decide

/-- C3 (amended): every row of the stage-6 output carries as `collab_count` the
number of raw appearances of its artist id across the edge-list rows (both
endpoint columns, each duplicate edge row counted again), and an artist
appearing in no edge row gets count 0. -/
theorem stage6_collab_count (edges : List (String × String)) (rows : List HitRow) :
    (∀ r ∈ stage6 edges rows,
      r.collab_count = (concatCount edges r.base.base.base.spotify_id : ℤ)) ∧
    (∀ a : String, (∀ e ∈ edges, e.1 ≠ a ∧ e.2 ≠ a) → concatCount edges a = 0) := by
  constructor
  · intro r hr
    rcases List.mem_map.mp hr with ⟨h, hh, rfl⟩
    rfl
  · intro a ha
    unfold concatCount
    rw [List.count_eq_zero]
    intro hmem
    rcases List.mem_append.mp hmem with h | h
    · rcases List.mem_map.mp h with ⟨e, he, hfst⟩
      exact (ha e he).1 hfst
    · rcases List.mem_map.mp h with ⟨e, he, hsnd⟩
      exact (ha e he).2 hsnd

/-- C3 (amended) witness: the stage-6 row for `"A"` against the duplicated edge
list carries the raw appearance count 2, and an id in no edge gets 0. -/
theorem stage6_collab_count_witness :
    sampleCollabA2.collab_count =
      (concatCount [("A", "B"), ("A", "B")] sampleCollabA2.base.base.base.spotify_id : ℤ) ∧
    concatCount [] "A" = 0 :=
  ⟨(stage6_collab_count [("A", "B"), ("A", "B")] [sampleHitA]).1 sampleCollabA2 (by decide),
   (stage6_collab_count [] []).2 "A" (by simp)⟩

/-- C4: a malformed entry anywhere in an artist's deserialized chart-hit list
makes that artist's whole chart-hit parse yield `[]` and be logged, and the
failure is isolated to that artist: the expanded-hits relation over the other
rows is exactly what it would be without the failing row, so the rest of the
pipeline proceeds unaffected. -/
theorem chart_hits_malformed_isolated (s : String) (entries : List String)
    (r : GenredRow) (l1 l2 : List GenredRow)
    (hparse : pyEvalStrList s = Except.ok entries)
    (hbad : ∃ e ∈ entries, parseEntry? e = none)
    (hr : r.base.chart_hits = PyVal.PStr s) :
    expand_chart_hits (PyVal.PStr s) = [] ∧
    chartHitsLogged (PyVal.PStr s) = true ∧
    expandedHits (l1 ++ r :: l2) = expandedHits (l1 ++ l2) := by
  obtain ⟨e, he, hne⟩ := hbad
  have herr : expandChartHitsE (PyVal.PStr s) =
      Except.error "not enough values to unpack" := by
    by_cases hs : s = "[]"
    · exfalso
      subst hs
      have h0 : pyEvalStrList "[]" = Except.ok [] := by decide
      rw [h0] at hparse
      have : entries = [] := (Except.ok.inj hparse).symm
      subst this
      cases he
    · simp only [expandChartHitsE, if_neg hs, hparse, mapO_eq_none_of_mem he hne]
  refine ⟨?_, ?_, ?_⟩
  · simp only [expand_chart_hits, herr]
  · simp only [chartHitsLogged, herr]
    rfl
  · have hzero : expand_chart_hits r.base.chart_hits = [] := by
      rw [hr]
      simp only [expand_chart_hits, herr]
    simp only [expandedHits, List.flatMap_append, List.flatMap_cons, hzero, List.map_nil,
      List.nil_append]

/-- C4 witness: the artist row with chart hits `['(US 1)', 'bogus']` parses to
`[]`, the failure is logged, and the well-formed row's expansion is untouched. -/
theorem chart_hits_malformed_isolated_witness :
    expand_chart_hits (PyVal.PStr "['(US 1)', 'bogus']") = [] ∧
    chartHitsLogged (PyVal.PStr "['(US 1)', 'bogus']") = true ∧
    expandedHits ([] ++ badGenredRow :: [goodGenredRow]) = expandedHits ([] ++ [goodGenredRow]) :=
  chart_hits_malformed_isolated "['(US 1)', 'bogus']" ["(US 1)", "bogus"] badGenredRow []
    [goodGenredRow] (by decide) ⟨"bogus", by decide, by decide⟩ (by decide)

/-- C5: one column pass of the stage-5 Tukey-fence removal (with Q1/Q3 at the
2.5/97.5 percentile, fence `[Q1 - 1.5·IQR, Q3 + 1.5·IQR]`, exactly represented
at scale 80) never removes a row whose value is strictly between the computed
bounds, and always removes a row whose value is strictly outside them; stage 5
is definitionally this pass on `followers` followed by this pass on
`popularity` (each with the bounds computed from its own input). -/
theorem tukey_fence_correct {α : Type} (f : α → ℤ) (rows : List α) (r : α) :
    (r ∈ rows → tukeyLower80 (rows.map f) < 80 * f r →
      80 * f r < tukeyUpper80 (rows.map f) → r ∈ tukeyStage f rows) ∧
    ((80 * f r < tukeyLower80 (rows.map f) ∨ tukeyUpper80 (rows.map f) < 80 * f r) →
      r ∉ tukeyStage f rows) ∧
    (∀ hrows : List HitRow,
      stage5 hrows =
        tukeyStage (fun x => x.base.base.popularity)
          (tukeyStage (fun x => x.base.base.followers) hrows)) := by
  refine ⟨?_, ?_, fun _ => rfl⟩
  · intro hmem hlo hhi
    unfold tukeyStage
    rw [List.mem_filter]
    refine ⟨hmem, ?_⟩
    simp only [Bool.and_eq_true, decide_eq_true_eq]
    exact ⟨le_of_lt hlo, le_of_lt hhi⟩
  · intro hout hmem2
    unfold tukeyStage at hmem2
    rw [List.mem_filter] at hmem2
    have hcond := hmem2.2
    simp only [Bool.and_eq_true, decide_eq_true_eq] at hcond
    rcases hout with h | h
    · exact absurd hcond.1 (not_le.mpr h)
    · exact absurd hcond.2 (not_le.mpr h)

/-- C5 witness: on `[0, 4, 8, 12]` the value 4 lies strictly inside the fence
and is kept; on forty copies of 10 with the outlier 1000000 the fence collapses
to the point 10 (`Q1 = Q3 = 10`) and the strictly-outside outlier is removed. -/
theorem tukey_fence_correct_witness :
    (4 : ℤ) ∈ tukeyStage (fun x => x) [0, 4, 8, 12] ∧
    (1000000 : ℤ) ∉ tukeyStage (fun x => x) (List.replicate 40 (10 : ℤ) ++ [1000000]) :=
  ⟨(tukey_fence_correct (fun x => x) [0, 4, 8, 12] 4).1 (by decide) (by decide) (by decide),
   (tukey_fence_correct (fun x => x) (List.replicate 40 (10 : ℤ) ++ [1000000]) 1000000).2.1
     (Or.inr (by decide))⟩

/-- C6: the Genre Classifier returns exactly the canonical genres some of whose
substrings occur in some lowercased raw tag: membership in the result is
equivalent to such a match, the result only contains the ten taxonomy buckets,
and in particular `["k-pop", "trap"]` maps to `{"pop", "hip-hop"}`. -/
theorem map_to_top_genres_correct :
    (∀ (g : String) (tags : List String),
      g ∈ map_to_top_genres tags ↔
        ∃ p ∈ top_genres, p.1 = g ∧ ∃ tag ∈ tags, ∃ sub ∈ p.2,
          strContainsSub (strLower tag) sub = true) ∧
    (∀ (tags : List String) (g : String), g ∈ map_to_top_genres tags →
      g ∈ top_genres.map Prod.fst) ∧
    map_to_top_genres ["k-pop", "trap"] = ["pop", "hip-hop"] := by
  refine ⟨?_, ?_, by decide⟩
  · intro g tags
    simp only [map_to_top_genres, List.mem_map, List.mem_filter, genreMatches,
      List.any_eq_true]
    constructor
    · rintro ⟨p, ⟨hp, tag, htag, sub, hsub, hc⟩, rfl⟩
      exact ⟨p, hp, rfl, tag, htag, sub, hsub, hc⟩
    · rintro ⟨p, hp, rfl, tag, htag, sub, hsub, hc⟩
      exact ⟨p, ⟨hp, tag, htag, sub, hsub, hc⟩, rfl⟩
  · intro tags g hg
    simp only [map_to_top_genres, List.mem_map, List.mem_filter] at hg
    rcases hg with ⟨p, ⟨hp, _⟩, rfl⟩
    exact List.mem_map.mpr ⟨p, hp, rfl⟩

/-- C6 witness: `"pop"` is classified from the tag `"k-pop"` and indeed lies in
the ten-bucket taxonomy. -/
theorem map_to_top_genres_correct_witness :
    "pop" ∈ top_genres.map Prod.fst :=
  map_to_top_genres_correct.2.1 ["k-pop"] "pop" (by decide)

/-- The stable sort is a permutation of its input. -/
theorem sortByDesc_perm (f : α → ℤ) (l : List α) : (sortByDesc f l).Perm l :=
  List.perm_insertionSort _ l

/-- Rows kept by a Tukey pass come from its input. -/
theorem mem_of_mem_tukeyStage {f : α → ℤ} {rows : List α} {r : α}
    (h : r ∈ tukeyStage f rows) : r ∈ rows :=
  (List.mem_filter.mp h).1

/-- Rows kept by stage 5 come from its input. -/
theorem mem_of_mem_stage5 {rows : List HitRow} {r : HitRow} (h : r ∈ stage5 rows) :
    r ∈ rows :=
  mem_of_mem_tukeyStage (mem_of_mem_tukeyStage h)

/-- Rows kept by stage 4 come from its input. -/
theorem mem_of_mem_stage4 {rows : List HitRow} {r : HitRow} (h : r ∈ stage4 rows) :
    r ∈ rows :=
  (sortByDesc_perm _ rows).mem_iff.mp (List.mem_of_mem_take h)

/-- Rows kept by stage 7 come from its input. -/
theorem mem_of_mem_stage7 {rows : List CollabRow} {r : CollabRow} (h : r ∈ stage7 rows) :
    r ∈ rows := by
  unfold stage7 at h
  split at h
  · cases h
  · exact (List.mem_filter.mp h).1

/-- Rows of stage 2 output have a nonempty cleaned genre list. -/
theorem mem_stage2_inv {rows : List ArtistRow} {g : GenredRow} (hm : g ∈ stage2 rows) :
    0 < g.cleaned_genres.length :=
  of_decide_eq_true (List.mem_filter.mp hm).2

/-- Stage-3 inversion: a joined row comes from an input row together with a
groupby record for its artist id. -/
theorem mem_stage3_inv {rows : List GenredRow} {h : HitRow} (hm : h ∈ stage3 rows) :
    h.base ∈ rows ∧
      ∃ t ∈ groupedHits rows, h.total_hits = t.2.1 ∧ h.num_countries = t.2.2 := by
  rcases List.mem_filterMap.mp hm with ⟨g, hg, hf⟩
  cases hfind : (groupedHits rows).find? (fun t => t.1 == g.base.spotify_id) with
  | none => rw [hfind] at hf; cases hf
  | some t =>
    rw [hfind] at hf
    cases hf
    exact ⟨hg, t, List.mem_of_find?_eq_some hfind, rfl, rfl⟩

/-- Every groupby record aggregates at least one chart hit, hence counts at
least one country. -/
theorem groupedHits_num_countries_pos {rows : List GenredRow} {t : String × ℤ × ℕ}
    (ht : t ∈ groupedHits rows) : 1 ≤ t.2.2 := by
  rcases List.mem_map.mp ht with ⟨i, hi, rfl⟩
  have hi2 : i ∈ (expandedHits rows).map (fun t => t.1) := List.mem_dedup.mp hi
  rcases List.mem_map.mp hi2 with ⟨x, hx, rfl⟩
  have hx2 : x.2 ∈ hitsFor (expandedHits rows) x.1 :=
    List.mem_filterMap.mpr ⟨x, hx, by simp⟩
  have hmm : x.2.1 ∈ ((hitsFor (expandedHits rows) x.1).map (fun h => h.1)).dedup :=
    List.mem_dedup.mpr (List.mem_map.mpr ⟨x.2, hx2, rfl⟩)
  exact List.length_pos.mpr (List.ne_nil_of_mem hmm)

/-- C7: the Analytical Dataset Builder's row count is at most 100 at stage 1,
never grows from one stage to the next through stage 7 (so it is at most 100 at
every stage 2-7), and every member of the final dataset has a nonempty
canonical genre list and aggregates at least one chart hit
(`num_countries ≥ 1`). -/
theorem pipeline_counts_and_invariants (edges : List (String × String))
    (nodes : List ArtistRow) :
    ((stage1 nodes).length ≤ 100 ∧
      (stage2 (stage1 nodes)).length ≤ (stage1 nodes).length ∧
      (stage3 (stage2 (stage1 nodes))).length ≤ (stage2 (stage1 nodes)).length ∧
      (stage4 (stage3 (stage2 (stage1 nodes)))).length ≤
        (stage3 (stage2 (stage1 nodes))).length ∧
      (stage5 (stage4 (stage3 (stage2 (stage1 nodes))))).length ≤
        (stage4 (stage3 (stage2 (stage1 nodes)))).length ∧
      (stage6 edges (stage5 (stage4 (stage3 (stage2 (stage1 nodes)))))).length ≤
        (stage5 (stage4 (stage3 (stage2 (stage1 nodes))))).length ∧
      (stage7 (stage6 edges (stage5 (stage4 (stage3 (stage2 (stage1 nodes))))))).length ≤
        (stage6 edges (stage5 (stage4 (stage3 (stage2 (stage1 nodes)))))).length) ∧
    ((stage2 (stage1 nodes)).length ≤ 100 ∧
      (stage3 (stage2 (stage1 nodes))).length ≤ 100 ∧
      (stage4 (stage3 (stage2 (stage1 nodes)))).length ≤ 100 ∧
      (stage5 (stage4 (stage3 (stage2 (stage1 nodes))))).length ≤ 100 ∧
      (stage6 edges (stage5 (stage4 (stage3 (stage2 (stage1 nodes)))))).length ≤ 100 ∧
      (stage7 (stage6 edges (stage5 (stage4 (stage3 (stage2 (stage1 nodes))))))).length ≤ 100) ∧
    (∀ r ∈ prepare_cleaned_data edges nodes,
      r.base.base.cleaned_genres ≠ [] ∧ 1 ≤ r.base.num_countries) := by
  have h1 : (stage1 nodes).length ≤ 100 := by
    unfold stage1
    rw [List.length_take]
    exact min_le_left _ _
  have h2 : (stage2 (stage1 nodes)).length ≤ (stage1 nodes).length := by
    unfold stage2
    exact le_trans (List.length_filter_le _ _) (le_of_eq (by rw [List.length_map]))
  have h3 : (stage3 (stage2 (stage1 nodes))).length ≤ (stage2 (stage1 nodes)).length :=
    List.length_filterMap_le _ _
  have h4 : (stage4 (stage3 (stage2 (stage1 nodes)))).length ≤
      (stage3 (stage2 (stage1 nodes))).length := by
    unfold stage4
    rw [List.length_take]
    exact le_trans (min_le_right _ _) (le_of_eq (sortByDesc_perm _ _).length_eq)
  have h5 : (stage5 (stage4 (stage3 (stage2 (stage1 nodes))))).length ≤
      (stage4 (stage3 (stage2 (stage1 nodes)))).length := by
    unfold stage5 tukeyStage
    exact le_trans (List.length_filter_le _ _) (List.length_filter_le _ _)
  have h6 : (stage6 edges (stage5 (stage4 (stage3 (stage2 (stage1 nodes)))))).length ≤
      (stage5 (stage4 (stage3 (stage2 (stage1 nodes))))).length := by
    unfold stage6
    rw [List.length_map]
  have h7 : (stage7 (stage6 edges (stage5 (stage4 (stage3 (stage2 (stage1 nodes))))))).length ≤
      (stage6 edges (stage5 (stage4 (stage3 (stage2 (stage1 nodes)))))).length := by
    unfold stage7
    split
    · exact Nat.zero_le _
    · exact List.length_filter_le _ _
  refine ⟨⟨h1, h2, h3, h4, h5, h6, h7⟩,
    ⟨le_trans h2 h1, le_trans h3 (le_trans h2 h1),
      le_trans h4 (le_trans h3 (le_trans h2 h1)),
      le_trans h5 (le_trans h4 (le_trans h3 (le_trans h2 h1))),
      le_trans h6 (le_trans h5 (le_trans h4 (le_trans h3 (le_trans h2 h1)))),
      le_trans h7 (le_trans h6 (le_trans h5 (le_trans h4 (le_trans h3 (le_trans h2 h1)))))⟩,
    ?_⟩
  intro r hr
  have hr6 : r ∈ stage6 edges (stage5 (stage4 (stage3 (stage2 (stage1 nodes))))) :=
    mem_of_mem_stage7 hr
  obtain ⟨x, hx5, rfl⟩ := List.mem_map.mp hr6
  have hx3 : x ∈ stage3 (stage2 (stage1 nodes)) := mem_of_mem_stage4 (mem_of_mem_stage5 hx5)
  obtain ⟨hbase2, t, ht, _, hnc⟩ := mem_stage3_inv hx3
  constructor
  · exact List.length_pos.mp (mem_stage2_inv hbase2)
  · rw [hnc]
    exact groupedHits_num_countries_pos ht

/-- C7 witness: on the two-artist input with edge `("A","B")` the final dataset
contains the row for `"A"`, which indeed keeps a nonempty genre list and a
positive country count. -/
theorem pipeline_counts_and_invariants_witness :
    sampleFinalA.base.base.cleaned_genres ≠ [] ∧ 1 ≤ sampleFinalA.base.num_countries :=
  (pipeline_counts_and_invariants [("A", "B")] [sampleRowA, sampleRowB]).2.2
    sampleFinalA (by decide)

/-- C8 counterexample: the claim says the computed degree always equals the
number of distinct neighboring nodes.  On the edge list `[("A","A")]` (a
self-loop, which the input format does not forbid), networkx's degree counts
the loop twice: `degree("A") = 2` while `"A"` has exactly one distinct
neighbor (itself). -/
theorem degree_self_loop_cex :
    nxDegree [("A", "A")] "A" = 2 ∧ (nxNeighbors [("A", "A")] "A").length = 1 ∧
    ¬ nxDegree [("A", "A")] "A" = (nxNeighbors [("A", "A")] "A").length := by decide

/-- C8 (amended): on an edge list without self-loop rows, the degree of every
node of the built graph equals its number of distinct neighbors, independent of
how many times an edge pair appears in the input; in particular for
`[(A,B), (A,B), (A,C)]`, `degree(A) = 2`. -/
theorem nxDegree_eq_distinct_neighbors :
    (∀ (edges : List (String × String)) (v : String),
      (∀ e ∈ edges, e.1 ≠ e.2) → nxDegree edges v = (nxNeighbors edges v).length) ∧
    nxDegree [("A", "B"), ("A", "B"), ("A", "C")] "A" = 2 := by
  constructor
  · intro edges v h
    unfold nxDegree
    have hsl : hasSelfLoopAt edges v = false := by
      cases hb : hasSelfLoopAt edges v with
      | false => rfl
      | true =>
        exfalso
        rcases List.any_eq_true.mp hb with ⟨e, he, hee⟩
        rw [Bool.and_eq_true] at hee
        have h1 := beq_iff_eq.mp hee.1
        have h2 := beq_iff_eq.mp hee.2
        exact h e he (h1.trans h2.symm)
    rw [hsl]
    simp
  · decide

/-- C8 (amended) witness: with duplicate and reversed edge rows but no
self-loop, the degree of `"A"` equals its distinct-neighbor count. -/
theorem nxDegree_eq_distinct_neighbors_witness :
    nxDegree [("A", "B"), ("B", "A"), ("A", "C")] "A" =
      (nxNeighbors [("A", "B"), ("B", "A"), ("A", "C")] "A").length :=
  nxDegree_eq_distinct_neighbors.1 [("A", "B"), ("B", "A"), ("A", "C")] "A" (by decide)

/-- `processEntries` succeeds as a whole or collapses to `[]`. -/
theorem processEntries_eq_ite (es : List String) :
    processEntries es =
      if es.all (fun e => (parseEntry? e).isSome) then es.filterMap parseEntry? else [] := by
  unfold processEntries
  rw [mapO_eq_ite]
  cases hall : es.all (fun e => (parseEntry? e).isSome) with
  | true => simp [hall]
  | false => simp [hall]

/-- Permuting the entry list permutes the processing result. -/
theorem processEntries_perm {es es' : List String} (h : es.Perm es') :
    (processEntries es).Perm (processEntries es') := by
  rw [processEntries_eq_ite, processEntries_eq_ite, perm_all_eq h]
  cases hall : es'.all (fun e => (parseEntry? e).isSome) with
  | true =>
    simp only [hall, if_true]
    exact h.filterMap parseEntry?
  | false => simp [hall]

/-- C9: the per-artist groupby aggregates are exactly the sum of the parsed hit
ranks and the count of distinct country codes, and both aggregates are
invariant under any permutation of the artist's chart-hit entry list. -/
theorem chart_aggregates_correct_perm_invariant :
    (∀ (rows : List GenredRow) (id : String) (th : ℤ) (nc : ℕ),
      (id, th, nc) ∈ groupedHits rows →
        th = totalHitsOf (hitsFor (expandedHits rows) id) ∧
        nc = numCountriesOf (hitsFor (expandedHits rows) id)) ∧
    (∀ es es' : List String, es.Perm es' →
      totalHitsOf (processEntries es) = totalHitsOf (processEntries es') ∧
      numCountriesOf (processEntries es) = numCountriesOf (processEntries es')) := by
  constructor
  · intro rows id th nc hmem
    rcases List.mem_map.mp hmem with ⟨i, hi, heq⟩
    cases heq
    exact ⟨rfl, rfl⟩
  · intro es es' h
    have hp := processEntries_perm h
    constructor
    · exact (hp.map (fun h => h.2)).sum_eq
    · unfold numCountriesOf
      rw [((hp.map (fun h => h.1)).dedup).length_eq]

/-- C9 witness: the aggregates of the sample artist, and order-independence on
a concrete two-entry list. -/
theorem chart_aggregates_witness :
    ((1 : ℤ) = totalHitsOf (hitsFor (expandedHits [goodGenredRow]) "G") ∧
      (1 : ℕ) = numCountriesOf (hitsFor (expandedHits [goodGenredRow]) "G")) ∧
    (totalHitsOf (processEntries ["(US 1)", "(CA 2)"]) =
        totalHitsOf (processEntries ["(CA 2)", "(US 1)"]) ∧
      numCountriesOf (processEntries ["(US 1)", "(CA 2)"]) =
        numCountriesOf (processEntries ["(CA 2)", "(US 1)"])) :=
  ⟨chart_aggregates_correct_perm_invariant.1 [goodGenredRow] "G" 1 1 (by decide),
   chart_aggregates_correct_perm_invariant.2 ["(US 1)", "(CA 2)"] ["(CA 2)", "(US 1)"]
     (by decide)⟩

/-- C10: the genre aggregate returns exactly one entry per taxonomy bucket, in
taxonomy order; a bucket with at least one dataset artist gets the arithmetic
mean of `collab_count` over the artists whose canonical genre set contains it,
and a bucket with no artist gets the value 0 (the entry is present, not
absent). -/
theorem genre_collaboration_stats_correct (rows : List CollabRow) :
    (genre_collaboration_stats rows).map Prod.fst =
      ["pop", "rock", "hip-hop", "edm", "r&b", "country", "jazz", "classical", "latin",
        "reggae"] ∧
    (genre_collaboration_stats rows).length = 10 ∧
    (∀ (g : String) (q : ℚ), (g, q) ∈ genre_collaboration_stats rows →
      ((rows.filter (fun r => r.base.base.cleaned_genres.contains g)) = [] → q = 0) ∧
      ((rows.filter (fun r => r.base.base.cleaned_genres.contains g)) ≠ [] →
        q = (((rows.filter (fun r => r.base.base.cleaned_genres.contains g)).map
              (fun r => r.collab_count)).sum : ℚ) /
            ((rows.filter (fun r => r.base.base.cleaned_genres.contains g)).length : ℚ))) := by
  refine ⟨?_, ?_, ?_⟩
  · unfold genre_collaboration_stats
    rw [List.map_map]
    rfl
  · unfold genre_collaboration_stats
    rw [List.length_map]
    rfl
  · intro g q hmem
    rcases List.mem_map.mp hmem with ⟨p, hp, heq⟩
    cases heq
    constructor
    · intro hempty
      exact if_pos (List.isEmpty_iff.mpr hempty)
    · intro hne
      exact if_neg (fun hh => hne (List.isEmpty_iff.mp hh))

/-- C10 witness: on the empty dataset, the `"jazz"` entry is present with value
0 rather than absent. -/
theorem genre_collaboration_stats_correct_witness :
    (([] : List CollabRow).filter (fun r => r.base.base.cleaned_genres.contains "jazz") = [] →
      (0 : ℚ) = 0) ∧
    (([] : List CollabRow).filter (fun r => r.base.base.cleaned_genres.contains "jazz") ≠ [] →
      (0 : ℚ) =
        (((([] : List CollabRow).filter
              (fun r => r.base.base.cleaned_genres.contains "jazz")).map
            (fun r => r.collab_count)).sum : ℚ) /
          ((([] : List CollabRow).filter
              (fun r => r.base.base.cleaned_genres.contains "jazz")).length : ℚ)) :=
  (genre_collaboration_stats_correct []).2.2 "jazz" 0 (by decide)

end SpotifyEDA
